import Mathlib

/-!
Verification of `src/api/recommendations.js` (internship-ai-backend).

The source file contains two iterations of the same Vercel edge handler,
separated by a document marker: the first iteration (lines 1-174) and the
second iteration (lines 175-345).  Both are embedded below as `POST1` and
`POST2`.

Modelling conventions:
* JavaScript values reaching the handler come from `request.json()` /
  constants in the file, so they are JSON-shaped plus `undefined`; they are
  embedded as the inductive `JSVal`.  JavaScript strings are `List Char`
  (one element per code unit).  JavaScript numbers are modelled on their
  integer fragment (`Int`, with `NaN` as a separate constructor of `JSNum`);
  no claim in scope depends on non-integer numerics.
* `JSON.parse` (used for the request body and for the model output) is an
  external library routine; it is passed to the handlers as an explicit
  parameter `jp : List Char -> Except (List Char) JSVal` returning either
  the parsed value or the message of the thrown syntax error.
* The external generation call (`client.responses.create`) is modelled by a
  parameter `genOut : Except (List Char) (List Char)`: either the message
  of a thrown invocation error or the `output_text` of the response.  Each
  handler records the request it would send in `HandlerOutcome.genCall`;
  `genCall = none` means the generation service was never invoked.
-/

/-- JavaScript runtime values, restricted to the JSON-shaped fragment the
handler manipulates, plus `undefined`. -/
inductive JSVal where
  | undefined : JSVal
  | null : JSVal
  | bool : Bool → JSVal
  | num : Int → JSVal
  | str : List Char → JSVal
  | arr : List JSVal → JSVal
  | obj : List (List Char × JSVal) → JSVal

/-- Shorthand turning a Lean string literal into the `List Char` used for
JavaScript strings. -/
def cs (s : String) : List Char := s.toList

/-- Property lookup in an object field list: first binding wins, absent
keys give `undefined`. -/
def lookupProp : List (List Char × JSVal) → List Char → JSVal
  | [], _ => .undefined
  | (k₀, v) :: fs, k => if k₀ = k then v else lookupProp fs k

/-- JavaScript property read `v[k]`; on the primitives the handler feeds it
(defaulted values) the read yields `undefined`. -/
def getProp : JSVal → List Char → JSVal
  | .obj fs, k => lookupProp fs k
  | _, _ => .undefined

/-- JavaScript nullish coalescing `a ?? b`. -/
def qq : JSVal → JSVal → JSVal
  | .undefined, b => b
  | .null, b => b
  | a, _ => a

/-- JavaScript optional chaining `v?.k`. -/
def optChain (v : JSVal) (k : List Char) : JSVal :=
  match v with
  | .undefined => .undefined
  | .null => .undefined
  | w => getProp w k

/-- JavaScript truthiness of the values in scope. -/
def truthy : JSVal → Bool
  | .undefined => false
  | .null => false
  | .bool b => b
  | .num n => n ≠ 0
  | .str s => s ≠ []
  | .arr _ => true
  | .obj _ => true

mutual

/-- JavaScript `String(v)` on the embedded fragment (arrays stringify via
`Array.prototype.toString`, i.e. `join(",")`; plain objects give the usual
bracketed object tag). -/
def jsToString : JSVal → List Char
  | .undefined => cs "undefined"
  | .null => cs "null"
  | .bool true => cs "true"
  | .bool false => cs "false"
  | .num n => (toString n).toList
  | .str s => s
  | .arr xs => jsArrJoin xs
  | .obj _ => cs "[object Object]"
termination_by v => (sizeOf v, 1)

/-- Array stringification: elements joined with commas. -/
def jsArrJoin : List JSVal → List Char
  | [] => []
  | [x] => jsElemString x
  | x :: y :: xs => jsElemString x ++ ',' :: jsArrJoin (y :: xs)
termination_by l => (sizeOf l, 0)

/-- Element stringification inside a join: null and undefined become the
empty string. -/
def jsElemString : JSVal → List Char
  | .null => []
  | .undefined => []
  | v => jsToString v
termination_by v => (sizeOf v, 2)

end

/-- Numeric values as produced by `Number(...)`: an integer or `NaN`
(integer fragment; see the file header). -/
inductive JSNum where
  | nan : JSNum
  | int : Int → JSNum
deriving DecidableEq

/-- Template-literal rendering of a number. -/
def jsNumToString : JSNum → List Char
  | .nan => cs "NaN"
  | .int n => (toString n).toList

/-- Value of a number once it is embedded in a `JSON.stringify`-ed payload
(`NaN` serializes as `null`). -/
def jsNumToVal : JSNum → JSVal
  | .nan => .null
  | .int n => .num n

/-- Characters removed by `String.prototype.trim` (the WhiteSpace and
LineTerminator code points that occur in practice). -/
def isJsWhitespace (c : Char) : Bool :=
  c = ' ' || c = '\t' || c = '\n' || c = '\r' ||
  c.toNat = 11 || c.toNat = 12 || c.toNat = 160 || c.toNat = 65279 ||
  c.toNat = 8232 || c.toNat = 8233

/-- JavaScript `s.trim()`: drop whitespace from both ends. -/
def jsTrim (s : List Char) : List Char :=
  (((s.dropWhile isJsWhitespace).reverse.dropWhile isJsWhitespace)).reverse

/-- JavaScript `s.split(",")` for a one-character separator. -/
def splitOnComma : List Char → List (List Char)
  | [] => [[]]
  | c :: rest =>
    if c = ',' then [] :: splitOnComma rest
    else
      match splitOnComma rest with
      | [] => [[c]]
      | g :: gs => (c :: g) :: gs

/-- Digit run to a natural number; `none` when some character is not an
ASCII digit or the run is empty. -/
def digitsVal : List Char → Option Nat
  | [] => none
  | l => if l.all Char.isDigit
         then some (l.foldl (fun acc c => acc * 10 + (c.toNat - 48)) 0)
         else none

/-- String-to-number conversion of `Number(...)` on the integer fragment:
after trimming, an empty string is 0, an optionally negated digit run is
its value, anything else is `NaN`. -/
def strToNum (s : List Char) : JSNum :=
  match jsTrim s with
  | [] => .int 0
  | '-' :: rest =>
    match digitsVal rest with
    | some m => .int (-(m : Int))
    | none => .nan
  | t =>
    match digitsVal t with
    | some m => .int (m : Int)
    | none => .nan

/-- JavaScript `Number(v)` on the embedded fragment; arrays and objects go
through their string form, as in the ToPrimitive path. -/
def jsNumber : JSVal → JSNum
  | .num n => .int n
  | .null => .int 0
  | .undefined => .nan
  | .bool true => .int 1
  | .bool false => .int 0
  | .str s => strToNum s
  | .arr xs => strToNum (jsToString (.arr xs))
  | .obj fs => strToNum (jsToString (.obj fs))

example : jsTrim (cs "  a b ") = cs "a b" := by decide
example : splitOnComma (cs "A, B") = [cs "A", cs " B"] := by decide
example : jsNumber (.str (cs " 14 ")) = .int 14 := by decide
example : jsNumber (.str (cs "x")) = .nan := by decide

/-- Result of the second-iteration `validateLicense`: the literal object
`\x7b ok, mode?, reason? \x7d` it returns. -/
structure LicenseCheck where
  ok : Bool
  mode : Option (List Char)
  reason : Option (List Char)
deriving DecidableEq

/-- Second-iteration `validateLicense(request)`.  `secret` is
`process.env.LICENSE_SECRET` (`[]` for unset or empty, both falsy there);
`header` is the raw `x-license-key` header (`none` when absent). -/
def validateLicense (secret : List Char) (header : Option (List Char)) : LicenseCheck :=
  if secret = [] then ⟨true, some (cs "no_license"), none⟩
  else
    let provided := header.getD []
    if provided = [] then ⟨false, none, some (cs "Missing license key.")⟩
    else
      let allow := ((splitOnComma secret).map jsTrim).filter (fun t => t ≠ [])
      if provided ∈ allow then ⟨true, some (cs "license_ok"), none⟩
      else ⟨false, none, some (cs "Invalid license key.")⟩

/-- First-iteration `validateLicense_(request)`: throws on failure; the
embedding returns the thrown message, `none` when the check passes. -/
def validateLicense_ (secret : List Char) (header : Option (List Char)) : Option (List Char) :=
  if secret = [] then none
  else
    let provided := header.getD []
    let allow := ((splitOnComma secret).map jsTrim).filter (fun t => t ≠ [])
    if provided = [] then some (cs "Missing license key (x-license-key).")
    else if provided ∈ allow then none
    else some (cs "Invalid license key.")

/-- Allowlist derived from a configured secret (shared by both gate
iterations): split on commas, trim each token, drop empties. -/
def allowTokens (secret : List Char) : List (List Char) :=
  ((splitOnComma secret).map jsTrim).filter (fun t => t ≠ [])

/-- First-iteration `safeString_(v, max)`: `String(v ?? "").slice(0, max)`. -/
def safeString_ (v : JSVal) (max : Nat) : List Char :=
  (jsToString (qq v (.str []))).take max

/-- First-iteration per-record application normalizer (the body of the
`slimApps` map at lines 82-95). -/
def slimApp (a : JSVal) : JSVal := .obj [
  (cs "company", qq (getProp a (cs "Company Name")) (qq (getProp a (cs "company")) (.str []))),
  (cs "role", qq (getProp a (cs "Role Title")) (qq (getProp a (cs "role")) (.str []))),
  (cs "status", qq (getProp a (cs "Status")) (qq (getProp a (cs "status")) (.str []))),
  (cs "priority", qq (getProp a (cs "Priority")) (qq (getProp a (cs "priority")) (.str []))),
  (cs "date_submitted", qq (getProp a (cs "Date Submitted")) (qq (getProp a (cs "date_submitted")) (.str []))),
  (cs "deadline", qq (getProp a (cs "Deadline")) (qq (getProp a (cs "deadline")) (.str []))),
  (cs "last_follow_up", qq (getProp a (cs "Last Follow-Up Date")) (qq (getProp a (cs "last_follow_up")) (.str []))),
  (cs "next_action", qq (getProp a (cs "Next Action Date")) (qq (getProp a (cs "next_action")) (.str []))),
  (cs "recruiter", qq (getProp a (cs "Recruiter Name")) (qq (getProp a (cs "recruiter")) (.str []))),
  (cs "recruiter_email", qq (getProp a (cs "Recruiter Email")) (qq (getProp a (cs "recruiter_email")) (.str []))),
  (cs "notes", .str (safeString_ (qq (getProp a (cs "Notes")) (getProp a (cs "notes"))) 500)),
  (cs "interest", qq (getProp a (cs "Interest Level (1–5)")) (qq (getProp a (cs "interest")) (.str [])))]

/-- First-iteration per-record networking normalizer (lines 97-105). -/
def slimNetworking (n : JSVal) : JSVal := .obj [
  (cs "company", qq (getProp n (cs "Company")) (.str [])),
  (cs "contact", qq (getProp n (cs "Contact Name")) (.str [])),
  (cs "email", qq (getProp n (cs "Email")) (.str [])),
  (cs "where_met", qq (getProp n (cs "Where Met")) (.str [])),
  (cs "last_contact", qq (getProp n (cs "Last Contact Date")) (.str [])),
  (cs "next_follow_up", qq (getProp n (cs "Next Follow-up Date")) (.str [])),
  (cs "notes", .str (safeString_ (getProp n (cs "Notes")) 500))]

/-- First-iteration per-record interview normalizer (lines 107-117). -/
def slimInterview (i : JSVal) : JSVal := .obj [
  (cs "company", qq (getProp i (cs "Company")) (.str [])),
  (cs "role", qq (getProp i (cs "Role")) (.str [])),
  (cs "stage", qq (getProp i (cs "Stage")) (.str [])),
  (cs "date", qq (getProp i (cs "Date")) (.str [])),
  (cs "format", qq (getProp i (cs "Format")) (.str [])),
  (cs "topics", .str (safeString_ (getProp i (cs "Topics")) 300)),
  (cs "rating", qq (getProp i (cs "Self Rating (1–5)")) (.str [])),
  (cs "follow_up_sent", qq (getProp i (cs "Follow-up Sent?")) (.str [])),
  (cs "notes", .str (safeString_ (getProp i (cs "Notes")) 400))]

/-- Field Normalizer on an application array: `apps.slice(0, 300).map(...)`. -/
def slimAppsArr (l : List JSVal) : List JSVal := (l.take 300).map slimApp

/-- Field Normalizer on a networking array: `networking.slice(0, 300).map(...)`. -/
def slimNetworkingArr (l : List JSVal) : List JSVal := (l.take 300).map slimNetworking

/-- Field Normalizer on an interview array: `interviews.slice(0, 200).map(...)`. -/
def slimInterviewsArr (l : List JSVal) : List JSVal := (l.take 200).map slimInterview

/-- Result of `normalizePayload_` / `normalizeInput` (identical in the two
iterations): the four destructured values, before any array-ness check. -/
structure NormalizedPayload where
  apps : JSVal
  networking : JSVal
  interviews : JSVal
  meta : JSVal

/-- Shared payload destructuring (`payload?.data?.x ?? []`, `payload?.meta ?? \x7b\x7d`). -/
def normalizePayload_ (payload : JSVal) : NormalizedPayload where
  apps := qq (optChain (optChain payload (cs "data")) (cs "applications")) (.arr [])
  networking := qq (optChain (optChain payload (cs "data")) (cs "networking")) (.arr [])
  interviews := qq (optChain (optChain payload (cs "data")) (cs "interviews")) (.arr [])
  meta := qq (optChain payload (cs "meta")) (.obj [])

/-- First-iteration ghosted-days resolution (line 62):
`Number(meta?.ghosted_days_threshold ?? 14)`. -/
def ghostedDays1 (meta : JSVal) : JSNum :=
  jsNumber (qq (optChain meta (cs "ghosted_days_threshold")) (.num 14))

/-- System prompt of the first iteration (lines 119-135) up to the
`ghostedDays` interpolation, after the final `.trim()`. -/
def sysPre1 : List Char := cs "You are an internship application AI coach.\nGiven applications, networking, and interviews, produce:\n- urgent actions (next 72 hours)\n- next 7 days plan\n- follow-ups with message drafts\n- recruiter questions\n- strategy insights\n- interview prep plan\n- risk flags\n\nRules:\n- Be specific and time-oriented.\n- Prioritize High priority + Submitted + No follow-up.\n- Treat apps as ghosted if submitted > "

/-- System prompt of the first iteration after the interpolation. -/
def sysPost1 : List Char := cs " days ago and no follow-up.\nReturn ONLY JSON matching the schema."

/-- First-iteration instruction text with the resolved threshold spliced in
by the template literal. -/
def systemPrompt1 (g : JSNum) : List Char := sysPre1 ++ jsNumToString g ++ sysPost1

/-- System prompt of the second iteration (lines 305-315) up to the
interpolation, after `.trim()`. -/
def sysPre2 : List Char := cs "You are an internship application AI coach.\nGiven the user\x27s applications, networking, and interview history,\ngenerate an actionable plan with follow-ups, outreach drafts, and insights.\n\nRules:\n- Be concrete and time-oriented (use \"today\", \"in 2 days\", \"this Friday\" style).\n- Prefer high priority + submitted + no follow-up applications first.\n- Identify ghosted items: submitted > "

/-- System prompt of the second iteration after the interpolation. -/
def sysPost2 : List Char := cs " days ago with no follow-up.\n- Output must match the JSON schema exactly."

/-- Second-iteration instruction text (its `ghostedDays` is a raw value,
not passed through `Number`). -/
def systemPrompt2 (g : JSVal) : List Char := sysPre2 ++ jsToString g ++ sysPost2

/-- Object-literal update `\x7b ...fs, k: v \x7d`: an existing key keeps its
position and is overwritten, a new key is appended. -/
def setKey (fs : List (List Char × JSVal)) (k : List Char) (v : JSVal) :
    List (List Char × JSVal) :=
  if fs.any (fun p => p.1 = k) then fs.map (fun p => if p.1 = k then (k, v) else p)
  else fs ++ [(k, v)]

/-- Own enumerable fields for an object spread (empty on the primitives the
handler can feed it). -/
def objFields : JSVal → List (List Char × JSVal)
  | .obj fs => fs
  | _ => []

/-- The `meta` object of the outgoing user payload:
`\x7b ...meta, ghosted_days_threshold: ghostedDays \x7d`. -/
def mergeMeta (meta : JSVal) (g : JSVal) : JSVal :=
  .obj (setKey (objFields meta) (cs "ghosted_days_threshold") g)

/-- First-iteration user payload (lines 137-142); the resolved threshold is
serialized as a JSON number. -/
def userPayload1 (meta : JSVal) (g : JSNum) (apps nw iv : List JSVal) : JSVal := .obj [
  (cs "meta", mergeMeta meta (jsNumToVal g)),
  (cs "applications", .arr apps),
  (cs "networking", .arr nw),
  (cs "interviews", .arr iv)]

/-- Second-iteration user payload (lines 317-322); its threshold is the raw
coalesced value. -/
def userPayload2 (meta : JSVal) (g : JSVal) (apps nw iv : List JSVal) : JSVal := .obj [
  (cs "meta", mergeMeta meta g),
  (cs "applications", .arr apps),
  (cs "networking", .arr nw),
  (cs "interviews", .arr iv)]

/-- Request the handler hands to `client.responses.create`: instruction
text, JSON user payload and the structural output constraint. -/
structure GenRequest where
  system : List Char
  user : JSVal
  schemaArg : JSVal

/-- HTTP response produced through the `json` helpers. -/
structure HttpResponse where
  status : Nat
  body : JSVal
  headers : List (List Char × List Char)

/-- Headers attached by the first-iteration `json` helper (lines 5-15). -/
def headers1 : List (List Char × List Char) := [
  (cs "content-type", cs "application/json"),
  (cs "access-control-allow-origin", cs "*"),
  (cs "access-control-allow-methods", cs "POST, OPTIONS"),
  (cs "access-control-allow-headers", cs "content-type, x-license-key")]

/-- Headers attached by the second-iteration `json` helper (lines 179-184):
only the content type. -/
def headers2 : List (List Char × List Char) := [
  (cs "content-type", cs "application/json")]

/-- First-iteration `json(res, status)`. -/
def json1 (res : JSVal) (status : Nat) : HttpResponse := ⟨status, res, headers1⟩

/-- Second-iteration `json(res, status)`. -/
def json2 (res : JSVal) (status : Nat) : HttpResponse := ⟨status, res, headers2⟩

/-- First-iteration `OPTIONS` handler (lines 17-19). -/
def OPTIONS1 : HttpResponse := json1 (.obj [(cs "ok", .bool true)]) 200

/-- Error envelope `\x7b error: m \x7d`. -/
def errObj (m : List Char) : JSVal := .obj [(cs "error", .str m)]

/-- Inbound request as the handlers see it: the optional `x-license-key`
header and the raw body text fed to `request.json()`. -/
structure HttpRequest where
  licenseHeader : Option (List Char)
  bodyText : List Char

/-- Process environment: `OPENAI_API_KEY`, `LICENSE_SECRET` (a missing or
empty variable is `[]`, both being falsy where they are tested), and the
value of a global binding named `schema` if one exists outside the module
(`none` when reading the bare identifier `schema` throws a ReferenceError). -/
structure Env where
  openaiKey : List Char
  licenseSecret : List Char
  globalSchema : Option JSVal

/-- Outcome of one handler run: the HTTP response, and the generation
request if `client.responses.create` was invoked (`none` otherwise). -/
structure HandlerOutcome where
  response : HttpResponse
  genCall : Option GenRequest

/-- First-iteration `POST` handler (lines 49-174).  `jp` is `JSON.parse`,
`genOut` the result of the external generation call; thrown errors funnel
through the outer catch into `json(\x7b error \x7d, 500)`. -/
def POST1 (jp : List Char → Except (List Char) JSVal) (env : Env) (req : HttpRequest)
    (genOut : Except (List Char) (List Char)) : HandlerOutcome :=
  if env.openaiKey = [] then
    ⟨json1 (errObj (cs "Missing OPENAI_API_KEY environment variable in Vercel.")) 500, none⟩
  else
    match validateLicense_ env.licenseSecret req.licenseHeader with
    | some m => ⟨json1 (errObj m) 500, none⟩
    | none =>
      match jp req.bodyText with
      | .error _ => ⟨json1 (errObj (cs "Request body must be valid JSON.")) 400, none⟩
      | .ok payload =>
        let np := normalizePayload_ payload
        let ghostedDays := ghostedDays1 np.meta
        match env.globalSchema with
        | none => ⟨json1 (errObj (cs "schema is not defined")) 500, none⟩
        | some sv =>
          let schemaName := optChain sv (cs "name")
          let innerSchema := optChain sv (cs "schema")
          if !truthy schemaName || !truthy innerSchema then
            ⟨json1 (errObj (cs "Schema is missing. Ensure you have const schema = \x7b name, schema \x7d.")) 500, none⟩
          else
            match np.apps with
            | .arr apps =>
              match np.networking with
              | .arr networking =>
                match np.interviews with
                | .arr interviews =>
                  let sys := systemPrompt1 ghostedDays
                  let user := userPayload1 np.meta ghostedDays
                    (slimAppsArr apps) (slimNetworkingArr networking) (slimInterviewsArr interviews)
                  let fmt : JSVal := .obj [
                    (cs "type", .str (cs "json_schema")),
                    (cs "name", schemaName),
                    (cs "schema", innerSchema),
                    (cs "strict", .bool true)]
                  match genOut with
                  | .error e => ⟨json1 (errObj e) 500, some ⟨sys, user, fmt⟩⟩
                  | .ok out =>
                    match jp out with
                    | .error _ =>
                      ⟨json1 (.obj [(cs "error", .str (cs "Model returned non-JSON output.")),
                                    (cs "raw", .str out)]) 500, some ⟨sys, user, fmt⟩⟩
                    | .ok parsed => ⟨json1 parsed 200, some ⟨sys, user, fmt⟩⟩
                | _ => ⟨json1 (errObj (cs "interviews.slice is not a function")) 500, none⟩
              | _ => ⟨json1 (errObj (cs "networking.slice is not a function")) 500, none⟩
            | _ => ⟨json1 (errObj (cs "apps.slice is not a function")) 500, none⟩

/-- Second-iteration application normalizer (lines 225-238); identical
field logic to `slimApp`, with the `notes` coercion written inline. -/
def slimApp2 (a : JSVal) : JSVal := .obj [
  (cs "company", qq (getProp a (cs "Company Name")) (qq (getProp a (cs "company")) (.str []))),
  (cs "role", qq (getProp a (cs "Role Title")) (qq (getProp a (cs "role")) (.str []))),
  (cs "status", qq (getProp a (cs "Status")) (qq (getProp a (cs "status")) (.str []))),
  (cs "priority", qq (getProp a (cs "Priority")) (qq (getProp a (cs "priority")) (.str []))),
  (cs "date_submitted", qq (getProp a (cs "Date Submitted")) (qq (getProp a (cs "date_submitted")) (.str []))),
  (cs "deadline", qq (getProp a (cs "Deadline")) (qq (getProp a (cs "deadline")) (.str []))),
  (cs "last_follow_up", qq (getProp a (cs "Last Follow-Up Date")) (qq (getProp a (cs "last_follow_up")) (.str []))),
  (cs "next_action", qq (getProp a (cs "Next Action Date")) (qq (getProp a (cs "next_action")) (.str []))),
  (cs "recruiter", qq (getProp a (cs "Recruiter Name")) (qq (getProp a (cs "recruiter")) (.str []))),
  (cs "recruiter_email", qq (getProp a (cs "Recruiter Email")) (qq (getProp a (cs "recruiter_email")) (.str []))),
  (cs "notes", .str ((jsToString (qq (getProp a (cs "Notes")) (qq (getProp a (cs "notes")) (.str [])))).take 500)),
  (cs "interest", qq (getProp a (cs "Interest Level (1–5)")) (qq (getProp a (cs "interest")) (.str [])))]

/-- Second-iteration networking normalizer (lines 240-248). -/
def slimNetworking2 (n : JSVal) : JSVal := .obj [
  (cs "company", qq (getProp n (cs "Company")) (.str [])),
  (cs "contact", qq (getProp n (cs "Contact Name")) (.str [])),
  (cs "email", qq (getProp n (cs "Email")) (.str [])),
  (cs "where_met", qq (getProp n (cs "Where Met")) (.str [])),
  (cs "last_contact", qq (getProp n (cs "Last Contact Date")) (.str [])),
  (cs "next_follow_up", qq (getProp n (cs "Next Follow-up Date")) (.str [])),
  (cs "notes", .str ((jsToString (qq (getProp n (cs "Notes")) (.str []))).take 500))]

/-- Second-iteration interview normalizer (lines 250-260). -/
def slimInterview2 (i : JSVal) : JSVal := .obj [
  (cs "company", qq (getProp i (cs "Company")) (.str [])),
  (cs "role", qq (getProp i (cs "Role")) (.str [])),
  (cs "stage", qq (getProp i (cs "Stage")) (.str [])),
  (cs "date", qq (getProp i (cs "Date")) (.str [])),
  (cs "format", qq (getProp i (cs "Format")) (.str [])),
  (cs "topics", .str ((jsToString (qq (getProp i (cs "Topics")) (.str []))).take 300)),
  (cs "rating", qq (getProp i (cs "Self Rating (1–5)")) (.str [])),
  (cs "follow_up_sent", qq (getProp i (cs "Follow-up Sent?")) (.str [])),
  (cs "notes", .str ((jsToString (qq (getProp i (cs "Notes")) (.str []))).take 400))]

/-- Helper for the string-typed schema leaves below. -/
def tyStr : JSVal := .obj [(cs "type", .str (cs "string"))]

/-- Helper for the string-array schema leaves below. -/
def tyArrStr : JSVal := .obj [(cs "type", .str (cs "array")), (cs "items", tyStr)]

/-- Second-iteration local `schema` constant (lines 264-303). -/
def schema2 : JSVal := .obj [
  (cs "name", .str (cs "internship_ai_recommendations")),
  (cs "schema", .obj [
    (cs "type", .str (cs "object")),
    (cs "additionalProperties", .bool false),
    (cs "properties", .obj [
      (cs "summary", tyStr),
      (cs "urgent_actions", tyArrStr),
      (cs "next_7_days_plan", tyArrStr),
      (cs "follow_ups", .obj [
        (cs "type", .str (cs "array")),
        (cs "items", .obj [
          (cs "type", .str (cs "object")),
          (cs "additionalProperties", .bool false),
          (cs "properties", .obj [
            (cs "company", tyStr),
            (cs "suggested_date", tyStr),
            (cs "reason", tyStr),
            (cs "message_draft", tyStr)]),
          (cs "required", .arr [.str (cs "company"), .str (cs "suggested_date"),
            .str (cs "reason"), .str (cs "message_draft")])])]),
      (cs "recruiter_questions", tyArrStr),
      (cs "strategy_insights", tyArrStr),
      (cs "interview_prep", tyArrStr),
      (cs "risk_flags", tyArrStr)]),
    (cs "required", .arr [.str (cs "summary"), .str (cs "urgent_actions"),
      .str (cs "next_7_days_plan"), .str (cs "follow_ups"),
      .str (cs "recruiter_questions"), .str (cs "strategy_insights"),
      .str (cs "interview_prep"), .str (cs "risk_flags")])])]

/-- Second-iteration `POST` handler (lines 214-345).  The body parse and
the parse of the model output are not guarded by inner try/catch blocks
here, so their thrown messages surface through the outer catch as 500s. -/
def POST2 (jp : List Char → Except (List Char) JSVal) (env : Env) (req : HttpRequest)
    (genOut : Except (List Char) (List Char)) : HandlerOutcome :=
  if env.openaiKey = [] then
    ⟨json2 (errObj (cs "Missing env var: OPENAI_API_KEY")) 500, none⟩
  else
    let lic := validateLicense env.licenseSecret req.licenseHeader
    if lic.ok = false then
      ⟨json2 (errObj (lic.reason.getD [])) 401, none⟩
    else
      match jp req.bodyText with
      | .error e => ⟨json2 (errObj e) 500, none⟩
      | .ok payload =>
        let np := normalizePayload_ payload
        match np.apps with
        | .arr apps =>
          match np.networking with
          | .arr networking =>
            match np.interviews with
            | .arr interviews =>
              let ghostedDays := qq (getProp np.meta (cs "ghosted_days_threshold")) (.num 14)
              let sys := systemPrompt2 ghostedDays
              let user := userPayload2 np.meta ghostedDays
                ((apps.take 300).map slimApp2) ((networking.take 300).map slimNetworking2)
                ((interviews.take 200).map slimInterview2)
              let fmt : JSVal := .obj [
                (cs "type", .str (cs "json_schema")),
                (cs "json_schema", schema2)]
              match genOut with
              | .error e => ⟨json2 (errObj e) 500, some ⟨sys, user, fmt⟩⟩
              | .ok out =>
                match jp out with
                | .error e => ⟨json2 (errObj e) 500, some ⟨sys, user, fmt⟩⟩
                | .ok parsed => ⟨json2 parsed 200, some ⟨sys, user, fmt⟩⟩
            | _ => ⟨json2 (errObj (cs "interviews.slice is not a function")) 500, none⟩
          | _ => ⟨json2 (errObj (cs "networking.slice is not a function")) 500, none⟩
        | _ => ⟨json2 (errObj (cs "apps.slice is not a function")) 500, none⟩

/-- C8: every free-text field (notes capped at 500/500/400 code units,
topics at 300) is emitted with length at most its cap and equals exactly
the first cap-many code units of the string form of its input, nothing
altered before the cut and nothing appended. -/
theorem C8_free_text_truncation :
    (∀ (v : JSVal) (m : Nat), (safeString_ v m).length ≤ m ∧
      safeString_ v m = (jsToString (qq v (.str []))).take m) ∧
    (∀ a, getProp (slimApp a) (cs "notes") =
      .str (safeString_ (qq (getProp a (cs "Notes")) (getProp a (cs "notes"))) 500)) ∧
    (∀ n, getProp (slimNetworking n) (cs "notes") =
      .str (safeString_ (getProp n (cs "Notes")) 500)) ∧
    (∀ i, getProp (slimInterview i) (cs "topics") =
        .str (safeString_ (getProp i (cs "Topics")) 300) ∧
      getProp (slimInterview i) (cs "notes") =
        .str (safeString_ (getProp i (cs "Notes")) 400)) := by
  refine ⟨fun v m => ⟨?_, rfl⟩, fun a => rfl, fun n => rfl, fun i => ⟨rfl, rfl⟩⟩
  exact List.length_take_le m _

/-- C7: the Field Normalizer emits `min(L, cap)` records (cap 300/300/200
for applications/networking/interviews), keeping the first records in
their original order. -/
theorem C7_array_cap (l : List JSVal) :
    ((slimAppsArr l).length = min l.length 300 ∧
      ∀ i (h1 : i < (slimAppsArr l).length) (h2 : i < l.length),
        (slimAppsArr l).get ⟨i, h1⟩ = slimApp (l.get ⟨i, h2⟩)) ∧
    ((slimNetworkingArr l).length = min l.length 300 ∧
      ∀ i (h1 : i < (slimNetworkingArr l).length) (h2 : i < l.length),
        (slimNetworkingArr l).get ⟨i, h1⟩ = slimNetworking (l.get ⟨i, h2⟩)) ∧
    ((slimInterviewsArr l).length = min l.length 200 ∧
      ∀ i (h1 : i < (slimInterviewsArr l).length) (h2 : i < l.length),
        (slimInterviewsArr l).get ⟨i, h1⟩ = slimInterview (l.get ⟨i, h2⟩)) := by
  refine ⟨⟨?_, ?_⟩, ⟨?_, ?_⟩, ⟨?_, ?_⟩⟩ <;>
    simp [slimAppsArr, slimNetworkingArr, slimInterviewsArr, Nat.min_comm,
      List.get_eq_getElem, List.getElem_take]

/-- Witness for C7 at a one-element array. -/
theorem C7_array_cap_witness :
    (slimAppsArr [JSVal.null]).length = min [JSVal.null].length 300 ∧
    (slimAppsArr [JSVal.null]).get ⟨0, by decide⟩ =
      slimApp ([JSVal.null].get ⟨0, by decide⟩) :=
  ⟨(C7_array_cap [JSVal.null]).1.1, (C7_array_cap [JSVal.null]).1.2 0 (by decide) (by decide)⟩

/-- Trimming is idempotent, so the allowlist tokens (already trimmed) are
fixed points of `jsTrim`. -/
theorem jsTrim_idem (s : List Char) : jsTrim (jsTrim s) = jsTrim s := by
  have key : ∀ u : List Char, u.dropWhile isJsWhitespace = u →
      jsTrim u = u.rdropWhile isJsWhitespace := by
    intro u h
    unfold jsTrim
    rw [h]
    rfl
  have hu : (s.dropWhile isJsWhitespace).dropWhile isJsWhitespace
      = s.dropWhile isJsWhitespace := List.dropWhile_idempotent _ _
  have hts : jsTrim s = (s.dropWhile isJsWhitespace).rdropWhile isJsWhitespace := rfl
  have hstep : (jsTrim s).dropWhile isJsWhitespace = jsTrim s := by
    rw [hts, List.dropWhile_eq_self_iff]
    intro hl
    have hpre := List.rdropWhile_prefix isJsWhitespace (s.dropWhile isJsWhitespace)
    have hlen : 0 < (s.dropWhile isJsWhitespace).length := hl.trans_le hpre.length_le
    have hget := List.IsPrefix.getElem hpre hl
    simp only [List.get_eq_getElem, hget]
    have := List.dropWhile_eq_self_iff.mp hu hlen
    simpa using this
  rw [key _ hstep, hts, List.rdropWhile_idempotent]

/-- Members of the gate allowlist are trimmed tokens, hence `jsTrim`-fixed. -/
theorem allowTokens_trimmed (secret t : List Char) (h : t ∈ allowTokens secret) :
    jsTrim t = t := by
  rcases List.mem_filter.mp h with ⟨hm, _⟩
  rcases List.mem_map.mp hm with ⟨x, _, rfl⟩
  exact jsTrim_idem x

/-- C4: the Access Gate passes every request when no secret is configured,
even without a key header; with a secret it splits on commas trimming each
token, fails with the missing-key reason when no key was supplied, fails
with the invalid-key reason whenever the supplied key after trimming is
not an allowed token, and with secret "A,B" key "B" passes while key "C"
fails as invalid.  Both gate iterations are covered. -/
theorem C4_access_gate :
    (∀ h, (validateLicense [] h).ok = true ∧ validateLicense_ [] h = none) ∧
    (∀ secret, secret ≠ [] →
      validateLicense secret none = ⟨false, none, some (cs "Missing license key.")⟩ ∧
      validateLicense_ secret none = some (cs "Missing license key (x-license-key).")) ∧
    (∀ secret prov, secret ≠ [] → prov ≠ [] → jsTrim prov ∉ allowTokens secret →
      validateLicense secret (some prov) = ⟨false, none, some (cs "Invalid license key.")⟩ ∧
      validateLicense_ secret (some prov) = some (cs "Invalid license key.")) ∧
    (validateLicense (cs "A,B") (some (cs "B")) = ⟨true, some (cs "license_ok"), none⟩ ∧
      validateLicense (cs "A,B") (some (cs "C")) = ⟨false, none, some (cs "Invalid license key.")⟩ ∧
      validateLicense (cs "A,B") none = ⟨false, none, some (cs "Missing license key.")⟩) := by
  refine ⟨fun h => ⟨rfl, rfl⟩, fun secret hs => ⟨?_, ?_⟩,
    fun secret prov hs hp hnm => ?_, by decide, by decide, by decide⟩
  · simp [validateLicense, hs]
  · simp [validateLicense_, hs]
  · have hmem : prov ∉ allowTokens secret := by
      intro hin
      exact hnm (by rw [allowTokens_trimmed secret prov hin]; exact hin)
    have hmem2 : ∀ x ∈ splitOnComma secret, ¬jsTrim x = prov := by
      intro x hx hEq
      refine hmem (List.mem_filter.mpr ⟨List.mem_map.mpr ⟨x, hx, hEq⟩, ?_⟩)
      simpa [hEq] using hp
    constructor
    · simp [validateLicense, hs, hp]
      exact hmem2
    · simp [validateLicense_, hs, hp]
      exact hmem2

/-- Witness for C4 at secret "A,B" and supplied key " C ". -/
theorem C4_access_gate_witness :
    validateLicense (cs "A,B") (some (cs " C ")) = ⟨false, none, some (cs "Invalid license key.")⟩ ∧
    validateLicense_ (cs "A,B") (some (cs " C ")) = some (cs "Invalid license key.") :=
  C4_access_gate.2.2.1 (cs "A,B") (cs " C ") (by decide) (by decide) (by decide)

/-- Overwriting map step of `setKey` leaves other keys untouched. -/
theorem lookupProp_map_overwrite (k k2 : List Char) (v : JSVal) (h : k2 ≠ k)
    (fs : List (List Char × JSVal)) :
    lookupProp (fs.map (fun p => if p.1 = k then (k, v) else p)) k2 = lookupProp fs k2 := by
  induction fs with
  | nil => rfl
  | cons p fs ih =>
    obtain ⟨k₀, w⟩ := p
    simp only [List.map_cons]
    by_cases hk : k₀ = k
    · rw [show ((if (k₀, w).1 = k then (k, v) else (k₀, w)) = (k, v)) from if_pos hk]
      simp only [lookupProp]
      rw [if_neg (Ne.symm h), if_neg (fun hh : k₀ = k2 => h (hk ▸ hh).symm)]
      exact ih
    · rw [show ((if (k₀, w).1 = k then (k, v) else (k₀, w)) = (k₀, w)) from if_neg hk]
      simp only [lookupProp]
      rw [ih]

/-- Appending step of `setKey` leaves other keys untouched. -/
theorem lookupProp_append_single (k k2 : List Char) (v : JSVal) (h : k2 ≠ k)
    (fs : List (List Char × JSVal)) :
    lookupProp (fs ++ [(k, v)]) k2 = lookupProp fs k2 := by
  induction fs with
  | nil =>
    simp only [List.nil_append, lookupProp]
    rw [if_neg (Ne.symm h)]
  | cons p fs ih =>
    obtain ⟨k₀, w⟩ := p
    simp only [List.cons_append, lookupProp, List.append_eq]
    rw [ih]

/-- Overwriting map step of `setKey` installs the new value at the key. -/
theorem lookupProp_map_overwrite_self (k : List Char) (v : JSVal)
    (fs : List (List Char × JSVal)) (h : fs.any (fun p => p.1 = k)) :
    lookupProp (fs.map (fun p => if p.1 = k then (k, v) else p)) k = v := by
  induction fs with
  | nil => simp at h
  | cons p fs ih =>
    obtain ⟨k₀, w⟩ := p
    simp only [List.map_cons]
    by_cases hk : k₀ = k
    · rw [show ((if (k₀, w).1 = k then (k, v) else (k₀, w)) = (k, v)) from if_pos hk]
      simp only [lookupProp]
      simp
    · rw [show ((if (k₀, w).1 = k then (k, v) else (k₀, w)) = (k₀, w)) from if_neg hk]
      simp only [lookupProp]
      rw [if_neg hk]
      refine ih ?_
      rw [List.any_cons] at h
      rcases Bool.or_eq_true_iff.mp h with hh | hh
      · exact absurd (of_decide_eq_true hh) hk
      · exact hh

/-- Appending step of `setKey` installs the new value at the key. -/
theorem lookupProp_append_single_self (k : List Char) (v : JSVal)
    (fs : List (List Char × JSVal)) (h : ¬ fs.any (fun p => p.1 = k)) :
    lookupProp (fs ++ [(k, v)]) k = v := by
  induction fs with
  | nil => simp [lookupProp]
  | cons p fs ih =>
    obtain ⟨k₀, w⟩ := p
    have hk : ¬ k₀ = k := fun hh =>
      h (by rw [List.any_cons]; exact Bool.or_eq_true_iff.mpr (Or.inl (decide_eq_true hh)))
    simp only [List.cons_append, lookupProp, List.append_eq]
    rw [if_neg hk]
    exact ih (fun hh => h (by rw [List.any_cons]; exact Bool.or_eq_true_iff.mpr (Or.inr hh)))

/-- Reading back the key written by `setKey`. -/
theorem lookupProp_setKey_self (fs : List (List Char × JSVal)) (k : List Char) (v : JSVal) :
    lookupProp (setKey fs k v) k = v := by
  unfold setKey
  by_cases hany : fs.any (fun p => p.1 = k)
  · rw [if_pos hany]
    exact lookupProp_map_overwrite_self k v fs hany
  · rw [if_neg hany]
    exact lookupProp_append_single_self k v fs hany

/-- Reading any other key through `setKey` gives the original binding. -/
theorem lookupProp_setKey_ne (fs : List (List Char × JSVal)) (k k2 : List Char)
    (v : JSVal) (h : k2 ≠ k) :
    lookupProp (setKey fs k v) k2 = lookupProp fs k2 := by
  unfold setKey
  by_cases hany : fs.any (fun p => p.1 = k)
  · rw [if_pos hany]
    exact lookupProp_map_overwrite k k2 v h fs
  · rw [if_neg hany]
    exact lookupProp_append_single k k2 v h fs

/-- C9: a missing `meta.ghosted_days_threshold` resolves to 14; a provided
numeric value is used exactly, appears verbatim in the instruction text
and as the `ghosted_days_threshold` of the outgoing meta, every other meta
binding passing through unchanged. -/
theorem C9_ghosted_threshold (fs : List (List Char × JSVal)) :
    ((lookupProp fs (cs "ghosted_days_threshold") = .undefined ∨
        lookupProp fs (cs "ghosted_days_threshold") = .null) →
      ghostedDays1 (.obj fs) = .int 14) ∧
    (∀ n : Int, lookupProp fs (cs "ghosted_days_threshold") = .num n →
      ghostedDays1 (.obj fs) = .int n ∧
      (∃ p q, systemPrompt1 (.int n) = p ++ (toString n).toList ++ q) ∧
      getProp (mergeMeta (.obj fs) (jsNumToVal (.int n))) (cs "ghosted_days_threshold") = .num n ∧
      (∀ k, k ≠ cs "ghosted_days_threshold" →
        getProp (mergeMeta (.obj fs) (jsNumToVal (.int n))) k = lookupProp fs k) ∧
      getProp (userPayload1 (.obj fs) (.int n) [] [] []) (cs "meta") =
        mergeMeta (.obj fs) (jsNumToVal (.int n))) := by
  constructor
  · intro h
    rcases h with h | h <;> simp [ghostedDays1, optChain, getProp, h, qq, jsNumber]
  · intro n h
    refine ⟨by simp [ghostedDays1, optChain, getProp, h, qq, jsNumber],
      ⟨sysPre1, sysPost1, rfl⟩, ?_, ?_, rfl⟩
    · simpa [mergeMeta, getProp, objFields, jsNumToVal] using
        lookupProp_setKey_self fs (cs "ghosted_days_threshold") (.num n)
    · intro k hk
      simpa [mergeMeta, getProp, objFields, jsNumToVal] using
        lookupProp_setKey_ne fs (cs "ghosted_days_threshold") k (.num n) hk

/-- Witness for C9: default at an empty meta, and a provided value 21. -/
theorem C9_ghosted_threshold_witness :
    ghostedDays1 (.obj []) = .int 14 ∧
    ghostedDays1 (.obj [(cs "tz", .str (cs "utc")),
      (cs "ghosted_days_threshold", .num 21)]) = .int 21 ∧
    getProp (mergeMeta (.obj [(cs "tz", .str (cs "utc")),
      (cs "ghosted_days_threshold", .num 21)]) (jsNumToVal (.int 21))) (cs "tz") =
      .str (cs "utc") :=
  ⟨(C9_ghosted_threshold []).1 (Or.inl rfl),
   ((C9_ghosted_threshold [(cs "tz", .str (cs "utc")),
      (cs "ghosted_days_threshold", .num 21)]).2 21 rfl).1,
   ((C9_ghosted_threshold [(cs "tz", .str (cs "utc")),
      (cs "ghosted_days_threshold", .num 21)]).2 21 rfl).2.2.2.1 (cs "tz") (by decide)⟩

/-- Counterexample for C10: a second-iteration response (here the missing
configuration 500) carries only the JSON content type; the CORS headers
the claim promises on every response are absent. -/
theorem C10_counterexample :
    (POST2 (fun _ => .error (cs "x")) ⟨[], [], none⟩ ⟨none, []⟩ (.ok [])).response.headers =
      [(cs "content-type", cs "application/json")] ∧
    ((POST2 (fun _ => .error (cs "x")) ⟨[], [], none⟩ ⟨none, []⟩ (.ok [])).response.headers.find?
      (fun p => p.1 = cs "access-control-allow-origin")) = none := by
  exact ⟨rfl, rfl⟩

/-- C10 amended: every first-iteration response (and the OPTIONS preflight)
carries the fixed header set with JSON content type, CORS allow-origin *,
allow-methods POST, OPTIONS and allow-headers content-type, x-license-key;
every second-iteration response carries only the JSON content type. -/
theorem C10_response_headers (jp : List Char → Except (List Char) JSVal)
    (env : Env) (req : HttpRequest) (genOut : Except (List Char) (List Char)) :
    (POST1 jp env req genOut).response.headers = headers1 ∧
    (POST2 jp env req genOut).response.headers = headers2 ∧
    OPTIONS1.headers = headers1 := by
  refine ⟨?_, ?_, rfl⟩
  · simp only [POST1]
    repeat' split
    all_goals rfl
  · simp only [POST2]
    repeat' split
    all_goals rfl

/-- Counterexample for C1: with no global `schema` binding, a POST whose
body is not valid JSON is answered with status 400 (the malformed-body
guard), not the 500 envelope the claim promises for every POST request;
generation is still never invoked. -/
theorem C1_counterexample :
    (⟨cs "k", [], none⟩ : Env).globalSchema = none ∧
    (POST1 (fun _ => .error (cs "Unexpected token")) ⟨cs "k", [], none⟩
      ⟨none, cs "not json"⟩ (.ok [])).response.status = 400 ∧
    (POST1 (fun _ => .error (cs "Unexpected token")) ⟨cs "k", [], none⟩
      ⟨none, cs "not json"⟩ (.ok [])).response.status ≠ 500 ∧
    (POST1 (fun _ => .error (cs "Unexpected token")) ⟨cs "k", [], none⟩
      ⟨none, cs "not json"⟩ (.ok [])).genCall = none :=
  ⟨rfl, rfl, by decide, rfl⟩

/-- C1 amended: in the first iteration, whenever no global `schema` binding
with truthy `name` and `schema` fields exists, the generation service is
never invoked and the handler returns an error envelope: status 500 on
every path except the malformed-body guard, which answers 400. -/
theorem C1_no_schema_binding (jp : List Char → Except (List Char) JSVal)
    (env : Env) (req : HttpRequest) (genOut : Except (List Char) (List Char))
    (h : env.globalSchema = none ∨ ∃ sv, env.globalSchema = some sv ∧
      (truthy (optChain sv (cs "name")) = false ∨ truthy (optChain sv (cs "schema")) = false)) :
    (POST1 jp env req genOut).genCall = none ∧
    (∃ m, getProp (POST1 jp env req genOut).response.body (cs "error") = .str m) ∧
    ((POST1 jp env req genOut).response.status = 500 ∨
      ((POST1 jp env req genOut).response.status = 400 ∧ ∃ e, jp req.bodyText = .error e)) := by
  simp only [POST1]
  split
  · exact ⟨rfl, ⟨_, rfl⟩, Or.inl rfl⟩
  · split
    · exact ⟨rfl, ⟨_, rfl⟩, Or.inl rfl⟩
    · split
      · rename_i e heq
        exact ⟨rfl, ⟨_, rfl⟩, Or.inr ⟨rfl, ⟨e, heq⟩⟩⟩
      · split
        · exact ⟨rfl, ⟨_, rfl⟩, Or.inl rfl⟩
        · rename_i sv hsv
          split
          · exact ⟨rfl, ⟨_, rfl⟩, Or.inl rfl⟩
          · rename_i hcond
            exfalso
            rcases h with h | ⟨sv2, hsv2, hbad⟩
            · rw [h] at hsv
              exact Option.noConfusion hsv
            · rw [hsv] at hsv2
              obtain rfl : sv = sv2 := Option.some.inj hsv2
              simp only [Bool.or_eq_true, Bool.not_eq_true'] at hcond
              push_neg at hcond
              rcases hbad with hbad | hbad
              · exact absurd hbad hcond.1
              · exact absurd hbad hcond.2

/-- Witness for C1 amended: global binding present but without a `schema`
field, well-formed body, resulting in the missing-schema 500. -/
theorem C1_no_schema_binding_witness :
    (POST1 (fun _ => .ok (.obj [])) ⟨cs "k", [], some (.obj [(cs "name", .str (cs "x"))])⟩
      ⟨none, cs "body"⟩ (.ok [])).genCall = none ∧
    (∃ m, getProp (POST1 (fun _ => .ok (.obj [])) ⟨cs "k", [],
      some (.obj [(cs "name", .str (cs "x"))])⟩ ⟨none, cs "body"⟩ (.ok [])).response.body
      (cs "error") = .str m) ∧
    ((POST1 (fun _ => .ok (.obj [])) ⟨cs "k", [], some (.obj [(cs "name", .str (cs "x"))])⟩
      ⟨none, cs "body"⟩ (.ok [])).response.status = 500 ∨
      ((POST1 (fun _ => .ok (.obj [])) ⟨cs "k", [], some (.obj [(cs "name", .str (cs "x"))])⟩
        ⟨none, cs "body"⟩ (.ok [])).response.status = 400 ∧
        ∃ e, (fun _ => (.ok (.obj []) : Except (List Char) JSVal)) (cs "body") = .error e)) :=
  C1_no_schema_binding _ _ _ _ (Or.inr ⟨_, rfl, Or.inr rfl⟩)

/-- Concrete parse stub for witnesses: fails on the text "bad" with a
syntax-error message, parses anything else to an empty object. -/
def jpW : List Char → Except (List Char) JSVal :=
  fun s => if s = cs "bad" then .error (cs "SyntaxError") else .ok (.obj [])

/-- Concrete environment whose global `schema` binding is complete. -/
def envW : Env :=
  ⟨cs "k", [], some (.obj [(cs "name", .str (cs "s")),
    (cs "schema", .obj [(cs "type", .str (cs "object"))])])⟩

/-- Concrete request with a parsable body. -/
def reqW : HttpRequest := ⟨none, cs "good"⟩

/-- Counterexample for C5: in the second iteration a request body that is
not valid JSON is answered with status 500 carrying the parse-error
message, not the promised 400 envelope (generation is still not invoked). -/
theorem C5_counterexample :
    (POST2 (fun _ => .error (cs "Unexpected token")) ⟨cs "k", [], none⟩
      ⟨none, cs "not json"⟩ (.ok [])).response.status = 500 ∧
    (POST2 (fun _ => .error (cs "Unexpected token")) ⟨cs "k", [], none⟩
      ⟨none, cs "not json"⟩ (.ok [])).response.status ≠ 400 ∧
    (POST2 (fun _ => .error (cs "Unexpected token")) ⟨cs "k", [], none⟩
      ⟨none, cs "not json"⟩ (.ok [])).response.body = errObj (cs "Unexpected token") ∧
    (POST2 (fun _ => .error (cs "Unexpected token")) ⟨cs "k", [], none⟩
      ⟨none, cs "not json"⟩ (.ok [])).genCall = none :=
  ⟨rfl, by decide, rfl, rfl⟩

/-- C5 amended: with the credential configured and the gate passing, a body
that is not valid JSON yields, in the first iteration, a 400 envelope with
the fixed message, and in the second iteration a 500 envelope carrying the
parse-error message; neither iteration invokes the generation service. -/
theorem C5_malformed_body (jp : List Char → Except (List Char) JSVal)
    (env : Env) (req : HttpRequest) (genOut : Except (List Char) (List Char)) (e : List Char)
    (hk : env.openaiKey ≠ [])
    (h1 : validateLicense_ env.licenseSecret req.licenseHeader = none)
    (h2 : (validateLicense env.licenseSecret req.licenseHeader).ok = true)
    (hb : jp req.bodyText = .error e) :
    POST1 jp env req genOut =
      ⟨json1 (errObj (cs "Request body must be valid JSON.")) 400, none⟩ ∧
    POST2 jp env req genOut = ⟨json2 (errObj e) 500, none⟩ := by
  constructor
  · simp only [POST1]
    rw [if_neg hk, h1, hb]
  · simp only [POST2]
    rw [if_neg hk]
    split
    · rename_i hok
      rw [h2] at hok
      cases hok
    · rw [hb]

/-- Witness for C5 amended at a concrete malformed-body request. -/
theorem C5_malformed_body_witness :
    POST1 jpW ⟨cs "k", [], none⟩ ⟨none, cs "bad"⟩ (.ok []) =
      ⟨json1 (errObj (cs "Request body must be valid JSON.")) 400, none⟩ ∧
    POST2 jpW ⟨cs "k", [], none⟩ ⟨none, cs "bad"⟩ (.ok []) =
      ⟨json2 (errObj (cs "SyntaxError")) 500, none⟩ :=
  C5_malformed_body jpW ⟨cs "k", [], none⟩ ⟨none, cs "bad"⟩ (.ok []) (cs "SyntaxError")
    (by decide) rfl rfl rfl

/-- Counterexample for C6: in the second iteration, when the model output
"bad" is not parsable JSON the response is a bare 500 envelope carrying
only the parse-error message; the raw model output is not included
anywhere in the body, contrary to the claim. -/
theorem C6_counterexample :
    (POST2 jpW envW reqW (.ok (cs "bad"))).response.body = errObj (cs "SyntaxError") ∧
    getProp (POST2 jpW envW reqW (.ok (cs "bad"))).response.body (cs "raw") = .undefined ∧
    (POST2 jpW envW reqW (.ok (cs "bad"))).response.status = 500 :=
  ⟨rfl, rfl, rfl⟩

/-- C6 amended: whenever the generation call is reached and its result text
fails to parse as JSON, the first iteration answers 500 with an envelope
holding the fixed message and the raw text verbatim, while the second
iteration answers 500 with only the parse-error message, dropping the raw
text. -/
theorem C6_nonjson_output (jp : List Char → Except (List Char) JSVal)
    (env : Env) (req : HttpRequest) (out e : List Char)
    (hout : jp out = .error e)
    (h1 : (POST1 jp env req (.ok out)).genCall.isSome = true)
    (h2 : (POST2 jp env req (.ok out)).genCall.isSome = true) :
    (POST1 jp env req (.ok out)).response =
      json1 (.obj [(cs "error", .str (cs "Model returned non-JSON output.")),
        (cs "raw", .str out)]) 500 ∧
    (POST2 jp env req (.ok out)).response = json2 (errObj e) 500 := by
  constructor
  · clear h2
    revert h1
    simp only [POST1]
    repeat' split
    all_goals intro h1
    all_goals first | rfl | simp_all
  · clear h1
    revert h2
    simp only [POST2]
    repeat' split
    all_goals intro h2
    all_goals first | rfl | simp_all

/-- Witness for C6 amended at the concrete fixtures. -/
theorem C6_nonjson_output_witness :
    (POST1 jpW envW reqW (.ok (cs "bad"))).response =
      json1 (.obj [(cs "error", .str (cs "Model returned non-JSON output.")),
        (cs "raw", .str (cs "bad"))]) 500 ∧
    (POST2 jpW envW reqW (.ok (cs "bad"))).response = json2 (errObj (cs "SyntaxError")) 500 :=
  C6_nonjson_output jpW envW reqW (cs "bad") (cs "SyntaxError") rfl rfl rfl

/-- Modelled from the spec: the non-free-text field rule stated in the
Field Normalizer contract, "prefer a display-label key, fall back to a
canonical lowercase alias, fall back to empty string" — the first present
(non-nullish) candidate value, unchanged, else the empty string.  Used as
the reference the emitted fields are compared with. -/
def firstNonNullish : List JSVal → JSVal
  | [] => .str []
  | v :: rest =>
    match v with
    | .null => firstNonNullish rest
    | .undefined => firstNonNullish rest
    | w => w

/-- Candidate keys never produce a nullish emitted value. -/
theorem firstNonNullish_ne (vs : List JSVal) :
    firstNonNullish vs ≠ .null ∧ firstNonNullish vs ≠ .undefined := by
  induction vs with
  | nil => exact ⟨fun h => JSVal.noConfusion h, fun h => JSVal.noConfusion h⟩
  | cons v rest ih =>
    cases v <;> first
      | exact ih
      | exact ⟨fun h => JSVal.noConfusion h, fun h => JSVal.noConfusion h⟩

/-- Double coalesce against the empty-string default realizes the
two-candidate rule. -/
theorem qq2_props (v1 v2 : JSVal) :
    qq v1 (qq v2 (.str [])) = firstNonNullish [v1, v2] ∧
    qq v1 (qq v2 (.str [])) ≠ .null ∧ qq v1 (qq v2 (.str [])) ≠ .undefined := by
  have h : qq v1 (qq v2 (.str [])) = firstNonNullish [v1, v2] := by
    cases v1 <;> first | rfl | (cases v2 <;> rfl)
  refine ⟨h, ?_, ?_⟩
  · rw [h]
    exact (firstNonNullish_ne _).1
  · rw [h]
    exact (firstNonNullish_ne _).2

/-- Single coalesce against the empty-string default realizes the
one-candidate rule. -/
theorem qq1_props (v : JSVal) :
    qq v (.str []) = firstNonNullish [v] ∧
    qq v (.str []) ≠ .null ∧ qq v (.str []) ≠ .undefined := by
  have h : qq v (.str []) = firstNonNullish [v] := by
    cases v <;> rfl
  refine ⟨h, ?_, ?_⟩
  · rw [h]
    exact (firstNonNullish_ne _).1
  · rw [h]
    exact (firstNonNullish_ne _).2

/-- Alias table of the application normalizer: emitted key and ordered
candidate source keys, for every non-free-text field (lines 82-95). -/
def appAliasTable : List (List Char × List (List Char)) := [
  (cs "company", [cs "Company Name", cs "company"]),
  (cs "role", [cs "Role Title", cs "role"]),
  (cs "status", [cs "Status", cs "status"]),
  (cs "priority", [cs "Priority", cs "priority"]),
  (cs "date_submitted", [cs "Date Submitted", cs "date_submitted"]),
  (cs "deadline", [cs "Deadline", cs "deadline"]),
  (cs "last_follow_up", [cs "Last Follow-Up Date", cs "last_follow_up"]),
  (cs "next_action", [cs "Next Action Date", cs "next_action"]),
  (cs "recruiter", [cs "Recruiter Name", cs "recruiter"]),
  (cs "recruiter_email", [cs "Recruiter Email", cs "recruiter_email"]),
  (cs "interest", [cs "Interest Level (1–5)", cs "interest"])]

/-- Alias table of the networking normalizer for every non-free-text field
(lines 97-105): display-label keys only. -/
def networkingAliasTable : List (List Char × List (List Char)) := [
  (cs "company", [cs "Company"]),
  (cs "contact", [cs "Contact Name"]),
  (cs "email", [cs "Email"]),
  (cs "where_met", [cs "Where Met"]),
  (cs "last_contact", [cs "Last Contact Date"]),
  (cs "next_follow_up", [cs "Next Follow-up Date"])]

/-- Alias table of the interview normalizer for every non-free-text field
(lines 107-117): display-label keys only. -/
def interviewAliasTable : List (List Char × List (List Char)) := [
  (cs "company", [cs "Company"]),
  (cs "role", [cs "Role"]),
  (cs "stage", [cs "Stage"]),
  (cs "date", [cs "Date"]),
  (cs "format", [cs "Format"]),
  (cs "rating", [cs "Self Rating (1–5)"]),
  (cs "follow_up_sent", [cs "Follow-up Sent?"])]

/-- Counterexample for C2: a raw application whose `company` value is the
number 42 is normalized to a slim record whose `company` field is still
the number 42, not a string. -/
theorem C2_counterexample :
    getProp (slimApp (.obj [(cs "company", .num 42)])) (cs "company") = .num 42 ∧
    ∀ s, getProp (slimApp (.obj [(cs "company", .num 42)])) (cs "company") ≠ .str s :=
  ⟨rfl, fun _ h => JSVal.noConfusion h⟩

/-- C2 amended: for every non-free-text field of all three normalizers the
emitted value is the first present non-nullish candidate value, passed
through unchanged with its original runtime type (so no string coercion
and no date-to-ISO conversion happens inside the normalizer), absent or
null candidates yielding the empty string and never null or undefined;
only the free-text fields (notes, topics) are coerced to capped strings. -/
theorem C2_field_passthrough :
    (∀ a, ∀ p ∈ appAliasTable,
      getProp (slimApp a) p.1 = firstNonNullish (p.2.map (getProp a)) ∧
      getProp (slimApp a) p.1 ≠ .null ∧ getProp (slimApp a) p.1 ≠ .undefined) ∧
    (∀ n, ∀ p ∈ networkingAliasTable,
      getProp (slimNetworking n) p.1 = firstNonNullish (p.2.map (getProp n)) ∧
      getProp (slimNetworking n) p.1 ≠ .null ∧ getProp (slimNetworking n) p.1 ≠ .undefined) ∧
    (∀ i, ∀ p ∈ interviewAliasTable,
      getProp (slimInterview i) p.1 = firstNonNullish (p.2.map (getProp i)) ∧
      getProp (slimInterview i) p.1 ≠ .null ∧ getProp (slimInterview i) p.1 ≠ .undefined) ∧
    (∀ a, ∃ s, getProp (slimApp a) (cs "notes") = .str s ∧ s.length ≤ 500 ∧
      s = safeString_ (qq (getProp a (cs "Notes")) (getProp a (cs "notes"))) 500) ∧
    (∀ n, ∃ s, getProp (slimNetworking n) (cs "notes") = .str s ∧ s.length ≤ 500 ∧
      s = safeString_ (getProp n (cs "Notes")) 500) ∧
    (∀ i, (∃ s, getProp (slimInterview i) (cs "topics") = .str s ∧ s.length ≤ 300 ∧
        s = safeString_ (getProp i (cs "Topics")) 300) ∧
      (∃ s, getProp (slimInterview i) (cs "notes") = .str s ∧ s.length ≤ 400 ∧
        s = safeString_ (getProp i (cs "Notes")) 400)) := by
  refine ⟨fun a p hp => ?_, fun n p hp => ?_, fun i p hp => ?_,
    fun a => ⟨_, rfl, List.length_take_le 500 _, rfl⟩,
    fun n => ⟨_, rfl, List.length_take_le 500 _, rfl⟩,
    fun i => ⟨⟨_, rfl, List.length_take_le 300 _, rfl⟩,
      ⟨_, rfl, List.length_take_le 400 _, rfl⟩⟩⟩
  · simp only [appAliasTable, List.mem_cons, List.not_mem_nil, or_false] at hp
    rcases hp with rfl | rfl | rfl | rfl | rfl | rfl | rfl | rfl | rfl | rfl | rfl <;>
      exact qq2_props _ _
  · simp only [networkingAliasTable, List.mem_cons, List.not_mem_nil, or_false] at hp
    rcases hp with rfl | rfl | rfl | rfl | rfl | rfl <;> exact qq1_props _
  · simp only [interviewAliasTable, List.mem_cons, List.not_mem_nil, or_false] at hp
    rcases hp with rfl | rfl | rfl | rfl | rfl | rfl | rfl <;> exact qq1_props _

/-- Witness for C2 amended: a numeric candidate passes through as the
number 7, a networking display-label string passes through unchanged, and
a null candidate does not surface as null. -/
theorem C2_field_passthrough_witness :
    getProp (slimApp (.obj [(cs "Company Name", .num 7)])) (cs "company") = .num 7 ∧
    getProp (slimNetworking (.obj [(cs "Contact Name", .str (cs "Ann"))])) (cs "contact") =
      .str (cs "Ann") ∧
    getProp (slimApp (.obj [(cs "company", .null)])) (cs "company") ≠ .null :=
  ⟨(C2_field_passthrough.1 (.obj [(cs "Company Name", .num 7)])
      (cs "company", [cs "Company Name", cs "company"]) (by decide)).1,
    (C2_field_passthrough.2.1 (.obj [(cs "Contact Name", .str (cs "Ann"))])
      (cs "contact", [cs "Contact Name"]) (by decide)).1,
    (C2_field_passthrough.1 (.obj [(cs "company", .null)])
      (cs "company", [cs "Company Name", cs "company"]) (by decide)).2.1⟩

/-- Chained nullish coalescing with a string default is itself non-nullish,
so a further coalesce leaves it unchanged. -/
theorem qq_chain (v w c : JSVal) (s : List Char) :
    qq (qq v (qq w (.str s))) c = qq v (qq w (.str s)) := by
  cases v <;> first | rfl | (cases w <;> rfl)

/-- String form of a string value. -/
theorem jsToString_str (s : List Char) : jsToString (.str s) = s := by
  simp [jsToString]

/-- Truncating the string form of `undefined ?? ""` gives the empty
string. -/
theorem safeString_undefined (m : Nat) : safeString_ .undefined m = [] := by
  show (jsToString (qq .undefined (.str []))).take m = []
  rw [show qq .undefined (.str []) = .str [] from rfl, jsToString_str]
  exact List.take_nil

/-- Re-truncating an already truncated string is the identity. -/
theorem safeString_take (v : JSVal) (m : Nat) :
    safeString_ (.str (safeString_ v m)) m = safeString_ v m := by
  show (jsToString (qq (.str (safeString_ v m)) (.str []))).take m = safeString_ v m
  rw [show qq (.str (safeString_ v m)) (.str []) = .str (safeString_ v m) from rfl,
    jsToString_str]
  unfold safeString_
  rw [List.take_take, min_self]

/-- Per-record idempotence of the application normalizer: its canonical
lowercase keys are accepted back as fallback aliases. -/
theorem slimApp_fix (a : JSVal) : slimApp (slimApp a) = slimApp a := by
  show JSVal.obj [
    (cs "company", qq (qq (getProp a (cs "Company Name")) (qq (getProp a (cs "company")) (.str []))) (.str [])),
    (cs "role", qq (qq (getProp a (cs "Role Title")) (qq (getProp a (cs "role")) (.str []))) (.str [])),
    (cs "status", qq (qq (getProp a (cs "Status")) (qq (getProp a (cs "status")) (.str []))) (.str [])),
    (cs "priority", qq (qq (getProp a (cs "Priority")) (qq (getProp a (cs "priority")) (.str []))) (.str [])),
    (cs "date_submitted", qq (qq (getProp a (cs "Date Submitted")) (qq (getProp a (cs "date_submitted")) (.str []))) (.str [])),
    (cs "deadline", qq (qq (getProp a (cs "Deadline")) (qq (getProp a (cs "deadline")) (.str []))) (.str [])),
    (cs "last_follow_up", qq (qq (getProp a (cs "Last Follow-Up Date")) (qq (getProp a (cs "last_follow_up")) (.str []))) (.str [])),
    (cs "next_action", qq (qq (getProp a (cs "Next Action Date")) (qq (getProp a (cs "next_action")) (.str []))) (.str [])),
    (cs "recruiter", qq (qq (getProp a (cs "Recruiter Name")) (qq (getProp a (cs "recruiter")) (.str []))) (.str [])),
    (cs "recruiter_email", qq (qq (getProp a (cs "Recruiter Email")) (qq (getProp a (cs "recruiter_email")) (.str []))) (.str [])),
    (cs "notes", .str (safeString_ (.str (safeString_ (qq (getProp a (cs "Notes")) (getProp a (cs "notes"))) 500)) 500)),
    (cs "interest", qq (qq (getProp a (cs "Interest Level (1–5)")) (qq (getProp a (cs "interest")) (.str []))) (.str []))]
    = slimApp a
  simp only [qq_chain, safeString_take]
  rfl

/-- Fully empty slim networking record. -/
def emptyNetworkingRec : JSVal := .obj [
  (cs "company", .str []), (cs "contact", .str []), (cs "email", .str []),
  (cs "where_met", .str []), (cs "last_contact", .str []),
  (cs "next_follow_up", .str []), (cs "notes", .str [])]

/-- Fully empty slim interview record. -/
def emptyInterviewRec : JSVal := .obj [
  (cs "company", .str []), (cs "role", .str []), (cs "stage", .str []),
  (cs "date", .str []), (cs "format", .str []), (cs "topics", .str []),
  (cs "rating", .str []), (cs "follow_up_sent", .str []), (cs "notes", .str [])]

/-- Renormalizing any slim networking record erases it: the networking
normalizer reads only display-label keys, but emits canonical keys. -/
theorem slimNetworking_collapse (x : JSVal) :
    slimNetworking (slimNetworking x) = emptyNetworkingRec := by
  show JSVal.obj [
    (cs "company", .str []), (cs "contact", .str []), (cs "email", .str []),
    (cs "where_met", .str []), (cs "last_contact", .str []),
    (cs "next_follow_up", .str []), (cs "notes", .str (safeString_ .undefined 500))] =
    emptyNetworkingRec
  rw [safeString_undefined]
  rfl

/-- Renormalizing any slim interview record erases it for the same
reason. -/
theorem slimInterview_collapse (x : JSVal) :
    slimInterview (slimInterview x) = emptyInterviewRec := by
  show JSVal.obj [
    (cs "company", .str []), (cs "role", .str []), (cs "stage", .str []),
    (cs "date", .str []), (cs "format", .str []),
    (cs "topics", .str (safeString_ .undefined 300)),
    (cs "rating", .str []), (cs "follow_up_sent", .str []),
    (cs "notes", .str (safeString_ .undefined 400))] = emptyInterviewRec
  rw [safeString_undefined, safeString_undefined]
  rfl

/-- Counterexample for C3: an already-normalized one-record networking
array does not survive a second normalization pass; its company "Acme"
becomes the empty string. -/
theorem C3_counterexample :
    slimNetworkingArr [slimNetworking (.obj [(cs "Company", .str (cs "Acme"))])] ≠
      [slimNetworking (.obj [(cs "Company", .str (cs "Acme"))])] := by
  intro h
  have h1 : getProp ((slimNetworkingArr
      [slimNetworking (.obj [(cs "Company", .str (cs "Acme"))])]).headD .null)
      (cs "company") = .str [] := rfl
  have h2 : getProp (([slimNetworking (.obj [(cs "Company", .str (cs "Acme"))])] :
      List JSVal).headD .null) (cs "company") = .str (cs "Acme") := rfl
  rw [h] at h1
  exact List.noConfusion (JSVal.str.inj (h1.symm.trans h2))

/-- C3 amended: normalization is idempotent on application arrays (their
canonical keys are accepted as aliases), but renormalizing a normalized
networking or interview array collapses every record to the all-empty
slim record. -/
theorem C3_idempotence (l : List JSVal) :
    slimAppsArr (slimAppsArr l) = slimAppsArr l ∧
    slimNetworkingArr (slimNetworkingArr l) =
      List.replicate (slimNetworkingArr l).length emptyNetworkingRec ∧
    slimInterviewsArr (slimInterviewsArr l) =
      List.replicate (slimInterviewsArr l).length emptyInterviewRec := by
  refine ⟨?_, ?_, ?_⟩
  · show (((l.take 300).map slimApp).take 300).map slimApp = (l.take 300).map slimApp
    rw [List.take_of_length_le (by simp [List.length_take_le]), List.map_map]
    exact List.map_congr_left (fun x _ => slimApp_fix x)
  · show (((l.take 300).map slimNetworking).take 300).map slimNetworking =
      List.replicate ((l.take 300).map slimNetworking).length emptyNetworkingRec
    rw [List.take_of_length_le (by simp [List.length_take_le]), List.map_map]
    rw [show (slimNetworking ∘ slimNetworking) = fun _ => emptyNetworkingRec from
      funext slimNetworking_collapse]
    rw [List.map_const', List.length_map]
  · show (((l.take 200).map slimInterview).take 200).map slimInterview =
      List.replicate ((l.take 200).map slimInterview).length emptyInterviewRec
    rw [List.take_of_length_le (by simp [List.length_take_le]), List.map_map]
    rw [show (slimInterview ∘ slimInterview) = fun _ => emptyInterviewRec from
      funext slimInterview_collapse]
    rw [List.map_const', List.length_map]
